import Mathlib

/-!
Verification of the session/stream lifecycle coordinator of the Video_assistant
repository.  The embedding translates, from the source:

* `services/heygenService.js` — the `HeyGenService` class (session create/close,
  keep-alive, interrupt, prompt forwarding, stream attachment);
* `App.jsx` — the UI coordinator (session refresh at 9 minutes, prompt guard,
  avatar/voice lookup);
* `services/webrtcService.js` — the manual WebRTC negotiation path
  (`setupConnection` / `sendAnswerToHeyGen`).

Asynchronous methods become pure functions from a state and an environment
(the outcomes of external calls) to a trace of externally observable effects,
a result, and a new state.  A JS `throw` that escapes a method is modelled by
`JsOut.thrown` carrying the state at the moment of the throw.
-/

namespace VideoAssistant

/-- JS truthiness of a nullable string: `null`/`undefined` and `""` are falsy. -/
def jsFalsy : Option String → Bool
  | none => true
  | some s => s.isEmpty

/-- Externally observable calls issued by the client, in program order. -/
inductive Effect where
  | stopAvatar
  | unregisterBackend
  | settle (ms : Nat)
  | fetchToken
  | newAvatarInstance
  | createStartAvatar (avatarName voiceId : String)
  | registerBackend (avatarId voiceId : String)
  | llmRequest (prompt : String)
  | speak (text : String) (taskMode : Option String)
  | fetchActiveSessions
  deriving DecidableEq

/-- `e` is a `stopAvatar` provider call. -/
def isStop : Effect → Bool
  | .stopAvatar => true
  | _ => false

/-- `e` is a `createStartAvatar` provider call. -/
def isCreateCall : Effect → Bool
  | .createStartAvatar _ _ => true
  | _ => false

/-- `e` is a `speak` provider call. -/
def isSpeak : Effect → Bool
  | .speak _ _ => true
  | _ => false

/-- Number of `stopAvatar` calls issued strictly before the first
`createStartAvatar` call of a trace. -/
def stopsBeforeCreate (tr : List Effect) : Nat :=
  (tr.takeWhile (fun e => !isCreateCall e)).countP isStop

/-- Mutable fields of the `HeyGenService` singleton (constructor, part_000
lines 8-21), together with the video element the UI lends it:
`videoPresent` is `this.videoElement != null` and `videoSrcObject` its
`srcObject`; `avatarPresent` is `this.avatar != null` and `avatarMediaStream`
the avatar's `mediaStream` (streams are abstracted as numbers). -/
structure HGState where
  sessionId : Option String
  avatarPresent : Bool
  avatarMediaStream : Option Nat
  isSDKInitialized : Bool
  videoPresent : Bool
  videoSrcObject : Option Nat
  isAvatarSpeaking : Bool
  isSessionActive : Bool
  keepAliveOn : Bool
  currentAvatarId : Option String
  currentVoiceId : Option String
  deriving DecidableEq

/-- Result of an async JS method: resolve with a value, or reject (an escaped
`throw`); both carry the service state at that moment. -/
inductive JsOut (α : Type) where
  | ok (s : HGState) (v : α)
  | thrown (s : HGState)
  deriving DecidableEq

/-- The service state a method run ends in, whether it resolved or threw. -/
def JsOut.stateOf {α : Type} : JsOut α → HGState
  | .ok s _ => s
  | .thrown s => s

/-- Did the run resolve (as opposed to reject)? -/
def JsOut.isOk {α : Type} : JsOut α → Bool
  | .ok _ _ => true
  | .thrown _ => false

/-- The resolved value, when the run resolved. -/
def JsOut.value? {α : Type} : JsOut α → Option α
  | .ok _ v => some v
  | .thrown _ => none

/-- `this.avatar?.mediaStream`. -/
def avatarMS (s : HGState) : Option Nat :=
  if s.avatarPresent then s.avatarMediaStream else none

/-- Outcomes of the external calls `closeSession` makes. -/
structure CloseEnv where
  stopAvatarOk : Bool
  unregisterOk : Bool
  deriving DecidableEq

/-- The field resets of `closeSession` (part_000 lines 304-312): null the
session identifiers and flags, and clear the video sink when one is set. -/
def clearedAfterClose (s : HGState) : HGState :=
  { s with sessionId := none, isSessionActive := false, isAvatarSpeaking := false,
           currentAvatarId := none, currentVoiceId := none,
           videoSrcObject := if s.videoPresent then none else s.videoSrcObject }

/-- `closeSession` (part_000 lines 286-321).  An unset (falsy) session id
returns `{success: true}` at once.  Otherwise: stop the keep-alive interval,
call `stopAvatar` when an initialized avatar exists, POST the backend
unregistration, then clear every session field and the video sink.  The
`catch` block rethrows, so a failing `stopAvatar` or unregister fetch escapes
with the fields not yet cleared. -/
def closeSession (s : HGState) (env : CloseEnv) : List Effect × JsOut Unit :=
  if jsFalsy s.sessionId then ([], .ok s ())
  else
    let s1 := { s with keepAliveOn := false }
    if s1.avatarPresent && s1.isSDKInitialized then
      if env.stopAvatarOk then
        if env.unregisterOk then
          ([.stopAvatar, .unregisterBackend], .ok (clearedAfterClose s1) ())
        else ([.stopAvatar, .unregisterBackend], .thrown s1)
      else ([.stopAvatar], .thrown s1)
    else
      if env.unregisterOk then
        ([.unregisterBackend], .ok (clearedAfterClose s1) ())
      else ([.unregisterBackend], .thrown s1)

/-- Outcome of the external speak call a keep-alive tick may make. -/
structure TickEnv where
  speakOk : Bool
  deriving DecidableEq

/-- One keep-alive interval tick (part_000 lines 260-275).  The guard returns
without speaking when the session is inactive, the avatar handle is absent,
or the avatar is speaking; otherwise it submits one near-silent async speak.
The speak outcome `env.speakOk` is discarded by both the attached `.catch`
handler and the empty `try`/`catch`, so the tick cannot reject and touches
no state. -/
def keepAliveTick (s : HGState) (_env : TickEnv) : List Effect × HGState :=
  if !s.isSessionActive || !s.avatarPresent || s.isAvatarSpeaking then ([], s)
  else ([.speak " " (some "async")], s)

/-- Outcomes of the external calls `interruptAvatar` may make:
whether `this.avatar.interrupt` is a function, and whether calling it
resolves or throws. -/
structure InterruptEnv where
  interruptAvailable : Bool
  interruptOk : Bool
  deriving DecidableEq

/-- `interruptAvatar` (part_000 lines 227-250).  Without an initialized
avatar it resolves `false` untouched.  With an available `interrupt`
function it awaits it: on success it clears the speaking flag and resolves
`true`; the `catch` clears the flag and resolves `false`.  A missing
`interrupt` function resolves `false` with the flag untouched. -/
def interruptAvatar (s : HGState) (env : InterruptEnv) : JsOut Bool :=
  if !s.avatarPresent || !s.isSDKInitialized then .ok s false
  else if env.interruptAvailable then
    if env.interruptOk then .ok { s with isAvatarSpeaking := false } true
    else .ok { s with isAvatarSpeaking := false } false
  else .ok s false

/-- Outcomes of the external calls `sendPrompt` makes. -/
structure PromptEnv where
  llmFetchOk : Bool
  llmStatusSuccess : Bool
  llmResponse : String
  speakOk : Bool
  deriving DecidableEq

/-- Service-level `sendPrompt` (part_000 lines 167-224).  Preconditions: an
initialized SDK and an active session, else it throws synchronously.  It then
POSTs the prompt to the LLM backend — with no emptiness check on the text —
and forwards the completion to `avatar.speak` (task type `talk`, no task
mode).  Any fetch/speak failure is logged and rethrown. -/
def sendPrompt (s : HGState) (prompt : String) (env : PromptEnv) :
    List Effect × JsOut String :=
  if !s.avatarPresent || !s.isSDKInitialized then ([], .thrown s)
  else if !s.isSessionActive then ([], .thrown s)
  else
    if env.llmFetchOk then
      if env.llmStatusSuccess then
        if env.speakOk then
          ([.llmRequest prompt, .speak env.llmResponse none], .ok s env.llmResponse)
        else ([.llmRequest prompt, .speak env.llmResponse none], .thrown s)
      else ([.llmRequest prompt], .thrown s)
    else ([.llmRequest prompt], .thrown s)

/-- Outcomes of the external calls `createSessionWithBackend` makes.
`createResult` is the `createStartAvatar` outcome (`none` = throw); the
backend registration POST's outcome is irrelevant because its failure is
caught and only logged. -/
structure CreateEnv where
  close : CloseEnv
  tokenOk : Bool
  createResult : Option String
  deriving DecidableEq

/-- `initializeSDK` (part_000 lines 123-164): stop any old avatar (the error
is caught and only logged, so the outcome does not matter), replace it with a
fresh `StreamingAvatar` (whose `mediaStream` starts absent), register the
event listeners, and set `isSDKInitialized`. -/
def initSDK (s : HGState) : List Effect × HGState :=
  ((if s.avatarPresent then [.stopAvatar] else []) ++ [.newAvatarInstance],
   { s with avatarPresent := true, avatarMediaStream := none, isSDKInitialized := true })

/-- The `try` block of `createSessionWithBackend` (part_000 lines 41-119):
fetch the streaming token (a failed fetch or non-success status throws),
run `initializeSDK`, call `createStartAvatar`, record the returned session id
and mark the session active, POST the best-effort backend registration, and
start the keep-alive interval. -/
def createPhase (s : HGState) (avatarId voiceId : String) (env : CreateEnv) :
    List Effect × JsOut String :=
  if env.tokenOk then
    let (trI, sI) := initSDK s
    match env.createResult with
    | some sid =>
        ([.fetchToken] ++ trI ++
           [.createStartAvatar avatarId voiceId, .registerBackend avatarId voiceId],
         .ok { sI with sessionId := some sid, isSessionActive := true,
                       keepAliveOn := true } sid)
    | none =>
        ([.fetchToken] ++ trI ++ [.createStartAvatar avatarId voiceId], .thrown sI)
  else ([.fetchToken], .thrown s)

/-- `createSessionWithBackend` (part_000 lines 24-120).  It records the
requested avatar and voice ids, and — when a session is active with a truthy
id — first awaits `closeSession` and a fixed 1-second settle delay (an
escaped `closeSession` error propagates, this part precedes the `try`),
before running the create phase. -/
def createSessionWithBackend (s : HGState) (avatarId voiceId : String)
    (env : CreateEnv) : List Effect × JsOut String :=
  let s0 := { s with currentAvatarId := some avatarId, currentVoiceId := some voiceId }
  if s0.isSessionActive && !(jsFalsy s0.sessionId) then
    match closeSession s0 env.close with
    | (tr, .thrown sE) => (tr, .thrown sE)
    | (tr, .ok sC _) =>
        let (tr2, r) := createPhase sC avatarId voiceId env
        (tr ++ [.settle 1000] ++ tr2, r)
  else
    let (tr2, r) := createPhase s0 avatarId voiceId env
    (tr2, r)

/-- Shape of a `STREAM_READY` event as `attachAvatarStream` probes it:
`event?.detail?.stream`, `event?.detail?.mediaStream`, `event?.stream`. -/
structure StreamEvent where
  detailStream : Option Nat
  detailMediaStream : Option Nat
  eventStream : Option Nat
  deriving DecidableEq

/-- The candidate-source cascade of `attachAvatarStream` (part_000 lines
335-350): `event?.detail?.stream`, else `event?.detail?.mediaStream`, else
`event?.stream`, else `this.avatar?.mediaStream`. -/
def pickStream (ev : StreamEvent) (s : HGState) : Option Nat :=
  match ev.detailStream with
  | some x => some x
  | none =>
    match ev.detailMediaStream with
    | some x => some x
    | none =>
      match ev.eventStream with
      | some x => some x
      | none => avatarMS s

/-- Result of `attachAvatarStream`: the updated state and, when no candidate
source held a stream, the single scheduled retry delay (milliseconds). -/
structure AttachResult where
  state : HGState
  retryDelayMs : Option Nat
  deriving DecidableEq

/-- `attachAvatarStream` (part_000 lines 324-381).  Without a video element
it warns and returns.  Otherwise the first present candidate source is bound
to the sink (`videoElement.srcObject = stream`; the subsequent autoplay
attempts touch only playback).  When none is present, one retry is scheduled
with `setTimeout(..., 2000)`. -/
def attachAvatarStream (s : HGState) (ev : StreamEvent) : AttachResult :=
  if !s.videoPresent then ⟨s, none⟩
  else
    match pickStream ev s with
    | some st => ⟨{ s with videoSrcObject := some st }, none⟩
    | none => ⟨s, some 2000⟩

/-- The body of the retry scheduled by `attachAvatarStream` (part_000 lines
372-379), run on the state 2 seconds later: when `this.avatar?.mediaStream`
exists and the captured video element's `srcObject` is still unset, bind the
avatar's stream; otherwise do nothing (give up silently). -/
def attachRetryFire (s : HGState) : HGState :=
  match avatarMS s with
  | some st => if s.videoSrcObject = none then { s with videoSrcObject := some st } else s
  | none => s

/-! ## The App.jsx coordinator layer -/

/-- One entry of the `workingAvatars` table (App.jsx lines 12-24). -/
structure AvatarEntry where
  id : String
  name : String
  voice_id : String
  gender : String
  deriving DecidableEq

/-- The `workingAvatars` table of App.jsx (descriptions elided — the
coordinator reads only `id`, `name`, `voice_id`, `gender`). -/
def workingAvatars : List AvatarEntry :=
  [⟨"josh_lite3_20230714", "Josh", "da04d9a268ac468887a68359908e55b7", "male"⟩,
   ⟨"Anthony_Chair_Sitting_public", "Anthony", "0009aabefe3a4553bc581d837b6268cb", "male"⟩,
   ⟨"Pedro_Chair_Sitting_public", "Pedro", "e17b99e1b86e47e8b7f4cae0f806aa78", "male"⟩,
   ⟨"Alessandra_Chair_Sitting_public", "Alessandra", "1edc5e7338eb4e37b26dc8eb3f9b7e9c", "female"⟩,
   ⟨"Amina_Chair_Sitting_public", "Amina", "1edc5e7338eb4e37b26dc8eb3f9b7e9c", "female"⟩,
   ⟨"Anastasia_Chair_Sitting_public", "Anastasia", "1edc5e7338eb4e37b26dc8eb3f9b7e9c", "female"⟩,
   ⟨"Marianne_Chair_Sitting_public", "Marianne", "1edc5e7338eb4e37b26dc8eb3f9b7e9c", "female"⟩,
   ⟨"Rika_Chair_Sitting_public", "Rika", "1edc5e7338eb4e37b26dc8eb3f9b7e9c", "female"⟩]

/-- The voice id `createHeyGenSession` passes (App.jsx lines 126-127):
`workingAvatars.find(a => a.id === avatarId)?.voice_id || voiceId`
(the `||` falls back on an absent entry or an empty voice id). -/
def resolveVoiceId (avatarId voiceId : String) : String :=
  match workingAvatars.find? (fun a => a.id == avatarId) with
  | some a => if a.voice_id.isEmpty then voiceId else a.voice_id
  | none => voiceId

/-- React state of the App component (the fields the modelled handlers read
or write). -/
structure AppState where
  avatarId : String
  voiceId : String
  sessionId : Option String
  heygenConnected : Bool
  isAvatarSpeaking : Bool
  prompt : String
  loading : Bool
  lastResponse : Option String
  deriving DecidableEq

/-- `closeHeyGenSession` (App.jsx lines 153-168): await the service close,
null the video ref's `srcObject`, clear the session React state, and fetch
the active-session count; any error is caught and only logged (the state
updates after the failing await are skipped). -/
def closeHeyGenSession (app : AppState) (svc : HGState) (env : CloseEnv) :
    List Effect × AppState × HGState :=
  match closeSession svc env with
  | (tr, .ok svc2 _) =>
      (tr ++ [.fetchActiveSessions],
       { app with sessionId := none, heygenConnected := false, isAvatarSpeaking := false },
       { svc2 with videoSrcObject := if svc2.videoPresent then none else svc2.videoSrcObject })
  | (tr, .thrown svcE) => (tr, app, svcE)

/-- `createHeyGenSession` (App.jsx lines 123-150): resolve the voice id from
the avatar table, await `createSessionWithBackend`, and on success record the
session id, set connected, and fetch the active-session count; an error is
caught, alerted, and only `loading` is reset. -/
def createHeyGenSession (app : AppState) (svc : HGState) (env : CreateEnv) :
    List Effect × AppState × HGState :=
  let v := resolveVoiceId app.avatarId app.voiceId
  match createSessionWithBackend svc app.avatarId v env with
  | (tr, .ok svc2 sid) =>
      (tr ++ [.fetchActiveSessions],
       { app with sessionId := some sid, heygenConnected := true, loading := false }, svc2)
  | (tr, .thrown svcE) => (tr, { app with loading := false }, svcE)

/-- The auto-refresh deadline of App.jsx line 99: `9 * 60 * 1000` ms. -/
def refreshDelayMs : Nat := 9 * 60 * 1000

/-- The body of the session auto-refresh timeout (App.jsx lines 88-99), fired
at `refreshDelayMs`: close the session, wait a fixed 1-second settle delay,
and create a fresh one from the unchanged `avatarId`/`voiceId` React state. -/
def refreshSession (app : AppState) (svc : HGState) (cEnv : CloseEnv)
    (kEnv : CreateEnv) : List Effect × AppState × HGState :=
  let (tr1, app1, svc1) := closeHeyGenSession app svc cEnv
  let (tr2, app2, svc2) := createHeyGenSession app1 svc1 kEnv
  (tr1 ++ [.settle 1000] ++ tr2, app2, svc2)

/-- JS `String.prototype.trim`: drop leading and trailing whitespace
(written over the character list so it evaluates by reduction). -/
def jsTrim (s : String) : String :=
  ⟨(((s.data.dropWhile Char.isWhitespace).reverse.dropWhile
      Char.isWhitespace).reverse)⟩

/-- UI-level `sendPrompt` (App.jsx lines 182-211): a prompt that trims to
empty, or a send already in flight, returns at once — no error, no network
call.  Otherwise it awaits the service `sendPrompt`; on success it records
the response and clears the input, on failure it alerts and resets
`loading`. -/
def appSendPrompt (app : AppState) (svc : HGState) (env : PromptEnv) :
    List Effect × AppState × HGState :=
  if (jsTrim app.prompt).isEmpty || app.loading then ([], app, svc)
  else
    match sendPrompt svc app.prompt env with
    | (tr, .ok svc2 resp) =>
        (tr, { app with prompt := "", lastResponse := some resp, loading := false }, svc2)
    | (tr, .thrown svcE) => (tr, { app with loading := false }, svcE)

/-! ## The manual WebRTC negotiation path (`webrtcService.js`) -/

/-- Environment of one `setupConnection` run: the offer extracted from the
provider response (`none` when missing), the outcomes of the three setup
steps, the local answer SDP as it accumulates ICE candidates over time
(read from `pc.localDescription.sdp` at send time), the instant (ms after
the local description is set) at which ICE gathering reaches `complete`
(`none` = never), and the outcome of `heygenService.startSession`
(`false` covers both a `success: false` result and a throw). -/
structure NegEnv where
  sdpOffer : Option String
  setRemoteOk : Bool
  createAnswerOk : Bool
  setLocalOk : Bool
  localAnswerAt : Nat → String
  iceCompleteAt : Option Nat
  startSessionOk : Bool

/-- Outcome of `setupConnection`: resolve with the peer connection after the
answer was submitted at `sentAt`; reject after `pc.close()` (answer-submission
failure, webrtcService.js lines 548-556); reject with the peer connection
left open (a setup-step `.catch` only runs `cleanup()` before rejecting,
lines 521-525); or throw before any peer connection exists (missing offer,
line 424). -/
inductive NegResult where
  | resolved (answerSdp : String) (sentAt : Nat)
  | rejectedClosed (sentAt : Nat)
  | rejectedOpen
  | rejectedNoPC
  deriving DecidableEq

/-- The instant at which `sendAnswerToHeyGen` is triggered: the ICE-complete
event if it fires first, else the 15-second timeout (webrtcService.js lines
501-519). -/
def answerTime (env : NegEnv) : Nat :=
  match env.iceCompleteAt with
  | some t => min t 15000
  | none => 15000

/-- `setupConnection` + `sendAnswerToHeyGen` (webrtcService.js lines
415-557): extract the offer (throwing before the peer connection is created
when absent), run setRemoteDescription / createAnswer / setLocalDescription
(whose common `.catch` rejects after `cleanup()` alone), wait for ICE
completion bounded by the 15-second timeout, then submit the local answer as
it stands at that instant; submission failure closes the peer connection and
rejects, success resolves with it. -/
def setupConnection (env : NegEnv) : NegResult :=
  match env.sdpOffer with
  | none => .rejectedNoPC
  | some _ =>
    if !env.setRemoteOk then .rejectedOpen
    else if !env.createAnswerOk then .rejectedOpen
    else if !env.setLocalOk then .rejectedOpen
    else
      let t := answerTime env
      if env.startSessionOk then .resolved (env.localAnswerAt t) t
      else .rejectedClosed t

/-! ## Theorems -/

/-- C2: Idempotent close — with no session identifier set, `closeSession`
resolves `{success: true}` immediately: it issues no provider `stopAvatar`
call and no backend unregister request, and leaves every session field and
the video sink exactly as they were. -/
theorem closeSession_noSession_noop (s : HGState) (env : CloseEnv)
    (h : s.sessionId = none) : closeSession s env = ([], .ok s ()) := by
  simp [closeSession, jsFalsy, h]

/-- Witness for C2 at a concrete state (other fields set, video sink bound,
both external calls poised to fail — none is made). -/
theorem closeSession_noSession_noop_witness :
    closeSession
      { sessionId := none, avatarPresent := true, avatarMediaStream := some 3,
        isSDKInitialized := true, videoPresent := true, videoSrcObject := some 7,
        isAvatarSpeaking := true, isSessionActive := true, keepAliveOn := true,
        currentAvatarId := some "a", currentVoiceId := some "v" }
      { stopAvatarOk := false, unregisterOk := false } =
    ([],
     .ok { sessionId := none, avatarPresent := true, avatarMediaStream := some 3,
           isSDKInitialized := true, videoPresent := true, videoSrcObject := some 7,
           isAvatarSpeaking := true, isSessionActive := true, keepAliveOn := true,
           currentAvatarId := some "a", currentVoiceId := some "v" } ()) :=
  closeSession_noSession_noop _ _ rfl

/-- C3: Keep-alive guard — a tick while the avatar speaks, or while the
session is inactive, or with no avatar handle, submits no speak call at all;
otherwise it submits exactly one near-silent speak (text `" "`) in async
mode.  A tick never changes the service state, and its result does not
depend on the speak call's outcome (the failure is swallowed), so a tick
never surfaces an error. -/
theorem keepAlive_tick_guard (s : HGState) (env : TickEnv) :
    ((s.isAvatarSpeaking = true ∨ s.isSessionActive = false ∨ s.avatarPresent = false) →
        (keepAliveTick s env).fst.countP isSpeak = 0)
    ∧ (s.isAvatarSpeaking = false → s.isSessionActive = true → s.avatarPresent = true →
        (keepAliveTick s env).fst = [.speak " " (some "async")])
    ∧ (keepAliveTick s env).snd = s
    ∧ (∀ env2 : TickEnv, keepAliveTick s env = keepAliveTick s env2) := by
  refine ⟨?_, ?_, ?_, ?_⟩
  · rintro (h | h | h) <;> simp [keepAliveTick, h]
  · intro h1 h2 h3; simp [keepAliveTick, h1, h2, h3]
  · by_cases h : (!s.isSessionActive || !s.avatarPresent || s.isAvatarSpeaking) <;>
      simp [keepAliveTick, h]
  · intro env2; rfl

/-- Witness for C3: an active, non-speaking session with an avatar handle
submits exactly the one near-silent async speak, and a speaking one submits
none; the state is untouched in both runs. -/
theorem keepAlive_tick_guard_witness :
    (keepAliveTick
        { sessionId := some "sid", avatarPresent := true, avatarMediaStream := none,
          isSDKInitialized := true, videoPresent := true, videoSrcObject := none,
          isAvatarSpeaking := false, isSessionActive := true, keepAliveOn := true,
          currentAvatarId := some "a", currentVoiceId := some "v" }
        { speakOk := false }).fst = [.speak " " (some "async")]
    ∧ (keepAliveTick
        { sessionId := some "sid", avatarPresent := true, avatarMediaStream := none,
          isSDKInitialized := true, videoPresent := true, videoSrcObject := none,
          isAvatarSpeaking := true, isSessionActive := true, keepAliveOn := true,
          currentAvatarId := some "a", currentVoiceId := some "v" }
        { speakOk := false }).fst.countP isSpeak = 0 :=
  ⟨(keepAlive_tick_guard _ _).2.1 rfl rfl rfl,
   (keepAlive_tick_guard _ _).1 (Or.inl rfl)⟩

/-- C4 counterexample: with the avatar handle absent and the speaking flag
true, `interruptAvatar` resolves `false` and leaves the speaking flag true —
so the claim that the flag is false after every `interruptAvatar` is false
at this input. -/
theorem interrupt_keeps_flag_cex :
    interruptAvatar
      { sessionId := some "sid", avatarPresent := false, avatarMediaStream := none,
        isSDKInitialized := true, videoPresent := true, videoSrcObject := none,
        isAvatarSpeaking := true, isSessionActive := true, keepAliveOn := true,
        currentAvatarId := some "a", currentVoiceId := some "v" }
      { interruptAvailable := true, interruptOk := true } =
    .ok { sessionId := some "sid", avatarPresent := false, avatarMediaStream := none,
          isSDKInitialized := true, videoPresent := true, videoSrcObject := none,
          isAvatarSpeaking := true, isSessionActive := true, keepAliveOn := true,
          currentAvatarId := some "a", currentVoiceId := some "v" } false ∧
    (HGState.isAvatarSpeaking
      { sessionId := some "sid", avatarPresent := false, avatarMediaStream := none,
        isSDKInitialized := true, videoPresent := true, videoSrcObject := none,
        isAvatarSpeaking := true, isSessionActive := true, keepAliveOn := true,
        currentAvatarId := some "a", currentVoiceId := some "v" }) = true := by
  constructor <;> rfl

/-- C4 (amended): `interruptAvatar` clears the speaking flag exactly when the
provider interrupt call is actually attempted — with an initialized avatar
whose `interrupt` function exists, the flag is false afterwards whether the
call resolves or throws; with the SDK uninitialized, the avatar handle
absent, or the `interrupt` function missing, it resolves `false` and leaves
the whole state (speaking flag included) unchanged. -/
theorem interrupt_clears_flag_amended (s : HGState) (env : InterruptEnv) :
    (s.avatarPresent = true → s.isSDKInitialized = true →
        env.interruptAvailable = true →
        interruptAvatar s env =
          .ok { s with isAvatarSpeaking := false } env.interruptOk)
    ∧ ((s.avatarPresent = false ∨ s.isSDKInitialized = false ∨
          env.interruptAvailable = false) →
        interruptAvatar s env = .ok s false) := by
  constructor
  · intro h1 h2 h3
    by_cases h4 : env.interruptOk <;> simp [interruptAvatar, h1, h2, h3, h4]
  · rintro (h | h | h)
    · simp [interruptAvatar, h]
    · simp [interruptAvatar, h]
    · by_cases hg : (!s.avatarPresent || !s.isSDKInitialized) <;>
        simp [interruptAvatar, hg, h]

/-- Witness for C4 (amended): a speaking state with an initialized avatar
whose interrupt call throws still ends with the speaking flag cleared. -/
theorem interrupt_clears_flag_amended_witness :
    interruptAvatar
      { sessionId := some "sid", avatarPresent := true, avatarMediaStream := none,
        isSDKInitialized := true, videoPresent := true, videoSrcObject := none,
        isAvatarSpeaking := true, isSessionActive := true, keepAliveOn := true,
        currentAvatarId := some "a", currentVoiceId := some "v" }
      { interruptAvailable := true, interruptOk := false } =
    .ok { sessionId := some "sid", avatarPresent := true, avatarMediaStream := none,
          isSDKInitialized := true, videoPresent := true, videoSrcObject := none,
          isAvatarSpeaking := false, isSessionActive := true, keepAliveOn := true,
          currentAvatarId := some "a", currentVoiceId := some "v" } false :=
  (interrupt_clears_flag_amended _ _).1 rfl rfl rfl

/-- C10: Interrupt is total at the public interface — for every state and
every provider behaviour, `interruptAvatar` resolves (never throws, its
promise never rejects), and it resolves `true` exactly when the provider
interrupt call is available and succeeds on an initialized avatar; in every
other case (SDK uninitialized, avatar absent, `interrupt` missing, or the
call throwing) it resolves `false`. -/
theorem interrupt_never_rejects (s : HGState) (env : InterruptEnv) :
    interruptAvatar s env =
      .ok (if s.avatarPresent && s.isSDKInitialized && env.interruptAvailable
           then { s with isAvatarSpeaking := false } else s)
        (s.avatarPresent && s.isSDKInitialized && env.interruptAvailable &&
          env.interruptOk) := by
  by_cases h1 : s.avatarPresent <;> by_cases h2 : s.isSDKInitialized <;>
    by_cases h3 : env.interruptAvailable <;> by_cases h4 : env.interruptOk <;>
    simp [interruptAvatar, h1, h2, h3, h4]

/-- C5 counterexample: the service-level `sendPrompt` on a whitespace-only
prompt, with the SDK initialized and the session active, issues the LLM
backend request as its very first action — the prompt is not rejected
synchronously, and no `InvalidArgument` failure precedes a network call. -/
theorem sendPrompt_whitespace_calls_network_cex :
    (sendPrompt
        { sessionId := some "sid", avatarPresent := true, avatarMediaStream := none,
          isSDKInitialized := true, videoPresent := true, videoSrcObject := none,
          isAvatarSpeaking := false, isSessionActive := true, keepAliveOn := true,
          currentAvatarId := some "a", currentVoiceId := some "v" }
        "   "
        { llmFetchOk := true, llmStatusSuccess := true, llmResponse := "resp",
          speakOk := true }).fst.head? = some (.llmRequest "   ") := by
  rfl

/-- C5 (amended): empty or whitespace-only prompt text is dropped silently at
the UI layer — `sendPrompt` in App.jsx returns at once with no error, no
effect, and no state change when the prompt trims to empty; the service-level
`sendPrompt` performs no emptiness validation at all: whenever the SDK is
initialized and the session active, its first action for any prompt text is
the LLM backend request (no `InvalidArgument` error exists in the code). -/
theorem emptyPrompt_dropped_amended (app : AppState) (svc : HGState)
    (env : PromptEnv) :
    (jsTrim app.prompt = "" → appSendPrompt app svc env = ([], app, svc))
    ∧ (svc.avatarPresent = true → svc.isSDKInitialized = true →
        svc.isSessionActive = true →
        (sendPrompt svc app.prompt env).fst.head? =
          some (.llmRequest app.prompt)) := by
  constructor
  · intro h
    have he : (jsTrim app.prompt).isEmpty = true := by
      rw [h]; rfl
    simp [appSendPrompt, he]
  · intro h1 h2 h3
    by_cases hf : env.llmFetchOk <;> by_cases hs : env.llmStatusSuccess <;>
      by_cases hk : env.speakOk <;> simp [sendPrompt, h1, h2, h3, hf, hs, hk]

/-- Witness for C5 (amended): a whitespace-only prompt in the UI state is
dropped with no effects and no state change. -/
theorem emptyPrompt_dropped_amended_witness :
    appSendPrompt
      { avatarId := "a", voiceId := "v", sessionId := some "sid",
        heygenConnected := true, isAvatarSpeaking := false, prompt := "  ",
        loading := false, lastResponse := none }
      { sessionId := some "sid", avatarPresent := true, avatarMediaStream := none,
        isSDKInitialized := true, videoPresent := true, videoSrcObject := none,
        isAvatarSpeaking := false, isSessionActive := true, keepAliveOn := true,
        currentAvatarId := some "a", currentVoiceId := some "v" }
      { llmFetchOk := true, llmStatusSuccess := true, llmResponse := "resp",
        speakOk := true } =
    ([],
     { avatarId := "a", voiceId := "v", sessionId := some "sid",
       heygenConnected := true, isAvatarSpeaking := false, prompt := "  ",
       loading := false, lastResponse := none },
     { sessionId := some "sid", avatarPresent := true, avatarMediaStream := none,
       isSDKInitialized := true, videoPresent := true, videoSrcObject := none,
       isAvatarSpeaking := false, isSessionActive := true, keepAliveOn := true,
       currentAvatarId := some "a", currentVoiceId := some "v" }) :=
  (emptyPrompt_dropped_amended _ _ _).1 (by decide)

/-- C9: Stream-attach fallback order and bounded retry — with a video sink
present, `attachAvatarStream` binds the first present candidate in the order
`event.detail.stream`, `event.detail.mediaStream`, `event.stream`,
`avatar.mediaStream`; when none is present it schedules exactly one retry
2000 ms out, whose body binds the provider's live stream handle exactly when
one has appeared and the sink is still unset, and otherwise changes nothing
(gives up silently). -/
theorem streamAttach_fallback_retry (s : HGState) (ev : StreamEvent)
    (h : s.videoPresent = true) :
    (∀ x, ev.detailStream = some x →
        attachAvatarStream s ev = ⟨{ s with videoSrcObject := some x }, none⟩)
    ∧ (∀ x, ev.detailStream = none → ev.detailMediaStream = some x →
        attachAvatarStream s ev = ⟨{ s with videoSrcObject := some x }, none⟩)
    ∧ (∀ x, ev.detailStream = none → ev.detailMediaStream = none →
        ev.eventStream = some x →
        attachAvatarStream s ev = ⟨{ s with videoSrcObject := some x }, none⟩)
    ∧ (∀ x, ev.detailStream = none → ev.detailMediaStream = none →
        ev.eventStream = none → avatarMS s = some x →
        attachAvatarStream s ev = ⟨{ s with videoSrcObject := some x }, none⟩)
    ∧ (ev.detailStream = none → ev.detailMediaStream = none →
        ev.eventStream = none → avatarMS s = none →
        attachAvatarStream s ev = ⟨s, some 2000⟩)
    ∧ (∀ s2 : HGState,
        (∀ x, avatarMS s2 = some x → s2.videoSrcObject = none →
            attachRetryFire s2 = { s2 with videoSrcObject := some x })
        ∧ (avatarMS s2 = none → attachRetryFire s2 = s2)
        ∧ (∀ y, s2.videoSrcObject = some y → attachRetryFire s2 = s2)) := by
  refine ⟨?_, ?_, ?_, ?_, ?_, ?_⟩
  · intro x hx; simp [attachAvatarStream, pickStream, h, hx]
  · intro x h1 hx; simp [attachAvatarStream, pickStream, h, h1, hx]
  · intro x h1 h2 hx; simp [attachAvatarStream, pickStream, h, h1, h2, hx]
  · intro x h1 h2 h3 hx; simp [attachAvatarStream, pickStream, h, h1, h2, h3, hx]
  · intro h1 h2 h3 h4; simp [attachAvatarStream, pickStream, h, h1, h2, h3, h4]
  · intro s2
    refine ⟨?_, ?_, ?_⟩
    · intro x hx hs2; simp [attachRetryFire, hx, hs2]
    · intro hx; simp [attachRetryFire, hx]
    · intro y hy
      cases hx : avatarMS s2 with
      | none => simp [attachRetryFire, hx]
      | some x => simp [attachRetryFire, hx, hy]

/-- Witness for C9: a `streamReady` event with no usable stream in any field
and no live handle yet schedules the 2000 ms retry, and when the handle has
appeared by the time the retry fires (sink still unset) the retry binds it. -/
theorem streamAttach_fallback_retry_witness :
    attachAvatarStream
      { sessionId := some "sid", avatarPresent := true, avatarMediaStream := none,
        isSDKInitialized := true, videoPresent := true, videoSrcObject := none,
        isAvatarSpeaking := false, isSessionActive := true, keepAliveOn := true,
        currentAvatarId := some "a", currentVoiceId := some "v" }
      { detailStream := none, detailMediaStream := none, eventStream := none } =
      ⟨{ sessionId := some "sid", avatarPresent := true, avatarMediaStream := none,
         isSDKInitialized := true, videoPresent := true, videoSrcObject := none,
         isAvatarSpeaking := false, isSessionActive := true, keepAliveOn := true,
         currentAvatarId := some "a", currentVoiceId := some "v" }, some 2000⟩
    ∧ attachRetryFire
      { sessionId := some "sid", avatarPresent := true, avatarMediaStream := some 9,
        isSDKInitialized := true, videoPresent := true, videoSrcObject := none,
        isAvatarSpeaking := false, isSessionActive := true, keepAliveOn := true,
        currentAvatarId := some "a", currentVoiceId := some "v" } =
      { sessionId := some "sid", avatarPresent := true, avatarMediaStream := some 9,
        isSDKInitialized := true, videoPresent := true, videoSrcObject := some 9,
        isAvatarSpeaking := false, isSessionActive := true, keepAliveOn := true,
        currentAvatarId := some "a", currentVoiceId := some "v" } :=
  ⟨(streamAttach_fallback_retry _ _ rfl).2.2.2.2.1 rfl rfl rfl rfl,
   ((streamAttach_fallback_retry
      { sessionId := some "sid", avatarPresent := true, avatarMediaStream := none,
        isSDKInitialized := true, videoPresent := true, videoSrcObject := none,
        isAvatarSpeaking := false, isSessionActive := true, keepAliveOn := true,
        currentAvatarId := some "a", currentVoiceId := some "v" }
      { detailStream := none, detailMediaStream := none, eventStream := none }
      rfl).2.2.2.2.2 _).1 9 rfl rfl⟩

/-- C6: Negotiation timeout progress — when ICE gathering never reaches
`complete`, the negotiation does not hang: the local answer SDP, with
whatever candidates have been gathered by then (the partial set), is
submitted at the 15-second timeout, and (the submission succeeding) the
negotiation resolves; the timeout path is not a reject. -/
theorem negotiation_timeout_progress (env : NegEnv) (o : String)
    (ho : env.sdpOffer = some o) (h1 : env.setRemoteOk = true)
    (h2 : env.createAnswerOk = true) (h3 : env.setLocalOk = true)
    (hice : env.iceCompleteAt = none) (hs : env.startSessionOk = true) :
    setupConnection env = .resolved (env.localAnswerAt 15000) 15000
    ∧ answerTime env ≤ 15000 := by
  constructor
  · simp [setupConnection, ho, h1, h2, h3, hs, answerTime, hice]
  · simp [answerTime, hice]

/-- Witness for C6: a run whose ICE gathering never completes resolves with
the answer SDP as gathered at 15000 ms. -/
theorem negotiation_timeout_progress_witness :
    setupConnection
      { sdpOffer := some "offer-sdp", setRemoteOk := true, createAnswerOk := true,
        setLocalOk := true, localAnswerAt := fun _ => "answer-sdp",
        iceCompleteAt := none, startSessionOk := true } =
      .resolved "answer-sdp" 15000 :=
  (negotiation_timeout_progress _ "offer-sdp" rfl rfl rfl rfl rfl rfl).1

/-- C7 counterexample: a failure while setting the remote description makes
the negotiation reject with the half-open peer connection left open (its
`.catch` runs `cleanup()` alone and never `pc.close()`), refuting the claim
that every step failure closes the connection before rejecting. -/
theorem negotiation_reject_open_cex :
    setupConnection
      { sdpOffer := some "offer-sdp", setRemoteOk := false, createAnswerOk := true,
        setLocalOk := true, localAnswerAt := fun _ => "answer-sdp",
        iceCompleteAt := none, startSessionOk := true } = .rejectedOpen := by
  rfl

/-- C7 (amended): the half-open peer connection is closed before rejecting
exactly on the answer-submission step — when setRemoteDescription,
createAnswer and setLocalDescription succeed but the provider session-start
submission fails, the connection is closed and the negotiation rejects;
a failure in any of those three earlier steps rejects (after clearing the
ICE timer and handler) with the connection left open. -/
theorem negotiation_close_on_submit_amended (env : NegEnv) (o : String)
    (ho : env.sdpOffer = some o) :
    (env.setRemoteOk = true → env.createAnswerOk = true → env.setLocalOk = true →
        env.startSessionOk = false →
        setupConnection env = .rejectedClosed (answerTime env))
    ∧ ((env.setRemoteOk = false ∨ env.createAnswerOk = false ∨
          env.setLocalOk = false) →
        setupConnection env = .rejectedOpen) := by
  constructor
  · intro h1 h2 h3 h4; simp [setupConnection, ho, h1, h2, h3, h4]
  · rintro (h | h | h)
    · simp [setupConnection, ho, h]
    · by_cases h1 : env.setRemoteOk <;> simp [setupConnection, ho, h1, h]
    · by_cases h1 : env.setRemoteOk <;> by_cases h2 : env.createAnswerOk <;>
        simp [setupConnection, ho, h1, h2, h]

/-- Witness for C7 (amended): a run whose three setup steps succeed but whose
answer submission fails rejects after closing the peer connection, at the
instant ICE gathering completed. -/
theorem negotiation_close_on_submit_amended_witness :
    setupConnection
      { sdpOffer := some "offer-sdp", setRemoteOk := true, createAnswerOk := true,
        setLocalOk := true, localAnswerAt := fun _ => "answer-sdp",
        iceCompleteAt := some 3, startSessionOk := false } = .rejectedClosed 3 :=
  (negotiation_close_on_submit_amended _ "offer-sdp" rfl).1 rfl rfl rfl rfl

/-- The effect trace of one concrete `createSessionWithBackend` call made
while a session is active, every external call succeeding. -/
def replaceRunTrace : List Effect :=
  (createSessionWithBackend
    { sessionId := some "old-session", avatarPresent := true,
      avatarMediaStream := some 4, isSDKInitialized := true, videoPresent := true,
      videoSrcObject := some 4, isAvatarSpeaking := false, isSessionActive := true,
      keepAliveOn := true, currentAvatarId := some "a1", currentVoiceId := some "v1" }
    "a2" "v2"
    { close := { stopAvatarOk := true, unregisterOk := true }, tokenOk := true,
      createResult := some "new-session" }).fst

/-- C1 counterexample: in a successful session replacement, two `stopAvatar`
provider calls are issued on the old avatar handle before the new
`createStartAvatar` — one inside `closeSession` and a second inside
`initializeSDK`'s old-avatar cleanup — so "stopSession called exactly once
on it" is false at this input. -/
theorem createSession_double_stop_cex :
    stopsBeforeCreate replaceRunTrace = 2 ∧
    ¬ stopsBeforeCreate replaceRunTrace = 1 := by
  decide

/-- Helper: the run of `closeSession` on a fully-formed session (truthy id,
initialized avatar present) with both external calls succeeding. -/
theorem closeSession_full_run (s : HGState) (env : CloseEnv)
    (hsid : jsFalsy s.sessionId = false) (hav : s.avatarPresent = true)
    (hini : s.isSDKInitialized = true) (hstop : env.stopAvatarOk = true)
    (hun : env.unregisterOk = true) :
    closeSession s env =
      ([.stopAvatar, .unregisterBackend],
       .ok (clearedAfterClose { s with keepAliveOn := false }) ()) := by
  simp [closeSession, hsid, hav, hini, hstop, hun]

/-- C1 (amended): a `createSessionWithBackend` call made while a session is
active first runs the full `closeSession` (which issues one `stopAvatar` and
the backend unregister, and leaves the session marked inactive with its id
cleared), then waits the fixed 1-second settle delay, and only then fetches
the token; the SDK re-initialization then issues a second, error-swallowed
`stopAvatar` on the old avatar handle before the new `createStartAvatar` is
issued.  The old session is fully closed before the new one is created, so
at no point are two sessions simultaneously marked active — in between the
single session slot is inactive and empty. -/
theorem createSession_replaces_then_creates (s : HGState) (a v sid : String)
    (env : CreateEnv)
    (hact : s.isSessionActive = true) (hsid : jsFalsy s.sessionId = false)
    (hav : s.avatarPresent = true) (hini : s.isSDKInitialized = true)
    (hstop : env.close.stopAvatarOk = true) (hun : env.close.unregisterOk = true)
    (htok : env.tokenOk = true) (hcr : env.createResult = some sid) :
    (createSessionWithBackend s a v env).fst =
      [.stopAvatar, .unregisterBackend, .settle 1000, .fetchToken, .stopAvatar,
       .newAvatarInstance, .createStartAvatar a v, .registerBackend a v]
    ∧ stopsBeforeCreate (createSessionWithBackend s a v env).fst = 2
    ∧ (closeSession { s with currentAvatarId := some a, currentVoiceId := some v }
        env.close).fst = [.stopAvatar, .unregisterBackend]
    ∧ ((closeSession { s with currentAvatarId := some a, currentVoiceId := some v }
        env.close).snd.stateOf).isSessionActive = false
    ∧ ((closeSession { s with currentAvatarId := some a, currentVoiceId := some v }
        env.close).snd.stateOf).sessionId = none
    ∧ ((createSessionWithBackend s a v env).snd).isOk = true
    ∧ ((createSessionWithBackend s a v env).snd).value? = some sid
    ∧ ((createSessionWithBackend s a v env).snd.stateOf).isSessionActive = true
    ∧ ((createSessionWithBackend s a v env).snd.stateOf).sessionId = some sid := by
  have htr : (createSessionWithBackend s a v env).fst =
      [.stopAvatar, .unregisterBackend, .settle 1000, .fetchToken, .stopAvatar,
       .newAvatarInstance, .createStartAvatar a v, .registerBackend a v] := by
    simp [createSessionWithBackend, hact, hsid, closeSession_full_run, createPhase,
      initSDK, clearedAfterClose, htok, hcr, hav, hini, hstop, hun]
  refine ⟨htr, ?_, ?_, ?_, ?_, ?_, ?_, ?_, ?_⟩
  · rw [htr]; rfl
  · simp [closeSession_full_run, hsid, hav, hini, hstop, hun]
  · simp [closeSession_full_run, hsid, hav, hini, hstop, hun, JsOut.stateOf,
      clearedAfterClose]
  · simp [closeSession_full_run, hsid, hav, hini, hstop, hun, JsOut.stateOf,
      clearedAfterClose]
  · simp [createSessionWithBackend, hact, hsid, closeSession_full_run, createPhase,
      initSDK, clearedAfterClose, htok, hcr, hav, hini, hstop, hun, JsOut.isOk]
  · simp [createSessionWithBackend, hact, hsid, closeSession_full_run, createPhase,
      initSDK, clearedAfterClose, htok, hcr, hav, hini, hstop, hun, JsOut.value?]
  · simp [createSessionWithBackend, hact, hsid, closeSession_full_run, createPhase,
      initSDK, clearedAfterClose, htok, hcr, hav, hini, hstop, hun, JsOut.stateOf]
  · simp [createSessionWithBackend, hact, hsid, closeSession_full_run, createPhase,
      initSDK, clearedAfterClose, htok, hcr, hav, hini, hstop, hun, JsOut.stateOf]

/-- Witness for C1 (amended): the concrete replacement run realizes the
amended trace and leaves the new session active. -/
theorem createSession_replaces_then_creates_witness :
    replaceRunTrace =
      [.stopAvatar, .unregisterBackend, .settle 1000, .fetchToken, .stopAvatar,
       .newAvatarInstance, .createStartAvatar "a2" "v2",
       .registerBackend "a2" "v2"]
    ∧ stopsBeforeCreate replaceRunTrace = 2 :=
  ⟨(createSession_replaces_then_creates
      { sessionId := some "old-session", avatarPresent := true,
        avatarMediaStream := some 4, isSDKInitialized := true, videoPresent := true,
        videoSrcObject := some 4, isAvatarSpeaking := false, isSessionActive := true,
        keepAliveOn := true, currentAvatarId := some "a1",
        currentVoiceId := some "v1" }
      "a2" "v2" "new-session"
      { close := { stopAvatarOk := true, unregisterOk := true }, tokenOk := true,
        createResult := some "new-session" }
      rfl rfl rfl rfl rfl rfl rfl rfl).1,
   (createSession_replaces_then_creates
      { sessionId := some "old-session", avatarPresent := true,
        avatarMediaStream := some 4, isSDKInitialized := true, videoPresent := true,
        videoSrcObject := some 4, isAvatarSpeaking := false, isSessionActive := true,
        keepAliveOn := true, currentAvatarId := some "a1",
        currentVoiceId := some "v1" }
      "a2" "v2" "new-session"
      { close := { stopAvatarOk := true, unregisterOk := true }, tokenOk := true,
        createResult := some "new-session" }
      rfl rfl rfl rfl rfl rfl rfl rfl).2.1⟩

/-- C8: Renewal preserves identity — the 9-minute auto-refresh
(`refreshDelayMs` = 540000 ms) closes the session, waits the 1-second settle
delay, and issues exactly one new `createStartAvatar`, whose avatar id and
voice id are the ones the replaced session was created with (the React
`avatarId`/`voiceId` state is unchanged, and the avatar selector is disabled
while connected); the resulting service state records the same identity and
the fresh session id. -/
theorem refresh_preserves_identity (app : AppState) (svc : HGState)
    (cEnv : CloseEnv) (kEnv : CreateEnv) (sid0 sid : String)
    (hA : svc.currentAvatarId = some app.avatarId)
    (hV : svc.currentVoiceId = some (resolveVoiceId app.avatarId app.voiceId))
    (hs0 : svc.sessionId = some sid0) (hne : sid0.isEmpty = false)
    (_hact : svc.isSessionActive = true) (hav : svc.avatarPresent = true)
    (hini : svc.isSDKInitialized = true)
    (hstop : cEnv.stopAvatarOk = true) (hun : cEnv.unregisterOk = true)
    (htok : kEnv.tokenOk = true) (hcr : kEnv.createResult = some sid) :
    refreshDelayMs = 540000
    ∧ (refreshSession app svc cEnv kEnv).fst =
      [.stopAvatar, .unregisterBackend, .fetchActiveSessions, .settle 1000,
       .fetchToken, .stopAvatar, .newAvatarInstance,
       .createStartAvatar app.avatarId (resolveVoiceId app.avatarId app.voiceId),
       .registerBackend app.avatarId (resolveVoiceId app.avatarId app.voiceId),
       .fetchActiveSessions]
    ∧ (refreshSession app svc cEnv kEnv).fst.countP isCreateCall = 1
    ∧ ((refreshSession app svc cEnv kEnv).snd.snd).currentAvatarId =
        svc.currentAvatarId
    ∧ ((refreshSession app svc cEnv kEnv).snd.snd).currentVoiceId =
        svc.currentVoiceId
    ∧ ((refreshSession app svc cEnv kEnv).snd.snd).isSessionActive = true
    ∧ ((refreshSession app svc cEnv kEnv).snd.snd).sessionId = some sid
    ∧ ((refreshSession app svc cEnv kEnv).snd.fst).sessionId = some sid := by
  have hsid : jsFalsy svc.sessionId = false := by
    rw [hs0]; simp [jsFalsy, hne]
  have hc : closeSession svc cEnv =
      ([.stopAvatar, .unregisterBackend],
       .ok (clearedAfterClose { svc with keepAliveOn := false }) ()) := by
    simp [closeSession, hsid, hav, hini, hstop, hun]
  refine ⟨rfl, ?_, ?_, ?_, ?_, ?_, ?_, ?_⟩ <;>
    simp [refreshSession, closeHeyGenSession, createHeyGenSession, hc,
      createSessionWithBackend, createPhase, initSDK, clearedAfterClose,
      htok, hcr, hav, hA, hV, isCreateCall]

/-- Witness for C8: a concrete renewal of a Josh session recreates it with
the same avatar id and the same voice id, under a fresh session id. -/
theorem refresh_preserves_identity_witness :
    ((refreshSession
        { avatarId := "josh_lite3_20230714",
          voiceId := "da04d9a268ac468887a68359908e55b7", sessionId := some "old-s",
          heygenConnected := true, isAvatarSpeaking := false, prompt := "",
          loading := false, lastResponse := none }
        { sessionId := some "old-s", avatarPresent := true,
          avatarMediaStream := some 2, isSDKInitialized := true,
          videoPresent := true, videoSrcObject := some 2, isAvatarSpeaking := false,
          isSessionActive := true, keepAliveOn := true,
          currentAvatarId := some "josh_lite3_20230714",
          currentVoiceId := some "da04d9a268ac468887a68359908e55b7" }
        { stopAvatarOk := true, unregisterOk := true }
        { close := { stopAvatarOk := true, unregisterOk := true },
          tokenOk := true, createResult := some "new-s" }).snd.snd).currentAvatarId =
      some "josh_lite3_20230714"
    ∧ ((refreshSession
        { avatarId := "josh_lite3_20230714",
          voiceId := "da04d9a268ac468887a68359908e55b7", sessionId := some "old-s",
          heygenConnected := true, isAvatarSpeaking := false, prompt := "",
          loading := false, lastResponse := none }
        { sessionId := some "old-s", avatarPresent := true,
          avatarMediaStream := some 2, isSDKInitialized := true,
          videoPresent := true, videoSrcObject := some 2, isAvatarSpeaking := false,
          isSessionActive := true, keepAliveOn := true,
          currentAvatarId := some "josh_lite3_20230714",
          currentVoiceId := some "da04d9a268ac468887a68359908e55b7" }
        { stopAvatarOk := true, unregisterOk := true }
        { close := { stopAvatarOk := true, unregisterOk := true },
          tokenOk := true, createResult := some "new-s" }).snd.snd).currentVoiceId =
      some "da04d9a268ac468887a68359908e55b7"
    ∧ ((refreshSession
        { avatarId := "josh_lite3_20230714",
          voiceId := "da04d9a268ac468887a68359908e55b7", sessionId := some "old-s",
          heygenConnected := true, isAvatarSpeaking := false, prompt := "",
          loading := false, lastResponse := none }
        { sessionId := some "old-s", avatarPresent := true,
          avatarMediaStream := some 2, isSDKInitialized := true,
          videoPresent := true, videoSrcObject := some 2, isAvatarSpeaking := false,
          isSessionActive := true, keepAliveOn := true,
          currentAvatarId := some "josh_lite3_20230714",
          currentVoiceId := some "da04d9a268ac468887a68359908e55b7" }
        { stopAvatarOk := true, unregisterOk := true }
        { close := { stopAvatarOk := true, unregisterOk := true },
          tokenOk := true, createResult := some "new-s" }).snd.snd).sessionId =
      some "new-s" := by
  have h := refresh_preserves_identity
    { avatarId := "josh_lite3_20230714",
      voiceId := "da04d9a268ac468887a68359908e55b7", sessionId := some "old-s",
      heygenConnected := true, isAvatarSpeaking := false, prompt := "",
      loading := false, lastResponse := none }
    { sessionId := some "old-s", avatarPresent := true,
      avatarMediaStream := some 2, isSDKInitialized := true,
      videoPresent := true, videoSrcObject := some 2, isAvatarSpeaking := false,
      isSessionActive := true, keepAliveOn := true,
      currentAvatarId := some "josh_lite3_20230714",
      currentVoiceId := some "da04d9a268ac468887a68359908e55b7" }
    { stopAvatarOk := true, unregisterOk := true }
    { close := { stopAvatarOk := true, unregisterOk := true },
      tokenOk := true, createResult := some "new-s" }
    "old-s" "new-s" rfl (by decide) rfl (by decide) rfl rfl rfl rfl rfl rfl rfl
  exact ⟨h.2.2.2.1, h.2.2.2.2.1, h.2.2.2.2.2.2.1⟩

end VideoAssistant
